import Mathlib

/-!
Verification of the battle-service backend (FastAPI + PUBG stats + LLM coaching).

Shallow embedding of the Python sources:
  - app/services/ai_analysis.py   (AIAnalysisService: weapon scoring, aggregation, LLM calls)
  - app/services/pubg_api.py      (PUBGAPIService.extract_match_weapons_data)
  - app/api/pubg_routes.py        (analyze_match handler)

Conventions:
  - Python ints are modelled as `ℤ`, Python floats as `ℚ` (the arithmetic in the
    source is exact rational arithmetic on API counters).
  - Python dict fields read with `.get(k, default)` are modelled as `Option`
    fields read with `Option.getD`.
  - A Python division that could raise `ZeroDivisionError` is modelled with
    `pyDiv`, returning `Except PyErr ℚ`.
  - `None`-able Python returns are modelled as `Option`.
-/

namespace BattleService

/-- Python runtime errors relevant to the embedded code. -/
inductive PyErr where
  | zeroDivision
deriving DecidableEq, Repr

/-- Python `/` on numbers: raises `ZeroDivisionError` when the denominator is `0`. -/
def pyDiv (a b : ℚ) : Except PyErr ℚ :=
  if b = 0 then .error .zeroDivision else .ok (a / b)

/-- One weapon entry of the JSON `weaponSummaries` array of the weapon-mastery
payload.  Fields are read by `_process_weapon_stats` with `.get(key, default)`,
so each is `Option`-valued (missing key = `none`). -/
structure RawWeaponSummary where
  WeaponName : Option String
  TimesUsed : Option ℤ
  Kills : Option ℤ
  DamageDealt : Option ℚ
  HeadshotKills : Option ℤ
  LongestKill : Option ℚ
deriving DecidableEq, Repr

/-- The processed per-weapon counters built by
`AIAnalysisService._process_weapon_stats` (ai_analysis.py lines 133-140). -/
structure WeaponCounters where
  times_used : ℤ
  kills : ℤ
  damage : ℚ
  headshots : ℤ
  longest_kill : ℚ
  avg_damage_per_use : ℚ
deriving DecidableEq, Repr

/-- ai_analysis.py lines 133-140: the dict value built for one weapon.  Note the
source's quirk: the sort key uses `weapon.get("TimesUsed", 0)` but the
`avg_damage_per_use` denominator uses `weapon.get("TimesUsed", 1)`. -/
def mkCounters (w : RawWeaponSummary) : WeaponCounters :=
  { times_used := w.TimesUsed.getD 0
    kills := w.Kills.getD 0
    damage := w.DamageDealt.getD 0
    headshots := w.HeadshotKills.getD 0
    longest_kill := w.LongestKill.getD 0
    avg_damage_per_use := w.DamageDealt.getD 0 / ((max (w.TimesUsed.getD 1) 1 : ℤ) : ℚ) }

/-- The division of ai_analysis.py line 139
(`weapon.get("DamageDealt", 0) / max(weapon.get("TimesUsed", 1), 1)`)
instrumented for `ZeroDivisionError`. -/
def avg_damage_per_use_div (w : RawWeaponSummary) : Except PyErr ℚ :=
  pyDiv (w.DamageDealt.getD 0) ((max (w.TimesUsed.getD 1) 1 : ℤ) : ℚ)

/-- ai_analysis.py line 355: `kill_rate = stats['kills'] / max(stats['times_used'], 1)`. -/
def weaponKillRate (w : WeaponCounters) : ℚ :=
  (w.kills : ℚ) / ((max w.times_used 1 : ℤ) : ℚ)

/-- ai_analysis.py line 357:
`headshot_rate = stats['headshots'] / max(stats['kills'], 1) if stats['kills'] > 0 else 0`. -/
def weaponHeadshotRate (w : WeaponCounters) : ℚ :=
  if 0 < w.kills then (w.headshots : ℚ) / ((max w.kills 1 : ℤ) : ℚ) else 0

/-- ai_analysis.py line 359:
`weapon_score = kill_rate * 100 + damage_efficiency * 0.1 + headshot_rate * 50`
where `damage_efficiency = stats['avg_damage_per_use']` (line 356). -/
def weaponScore (w : WeaponCounters) : ℚ :=
  weaponKillRate w * 100 + w.avg_damage_per_use * (1 / 10) + weaponHeadshotRate w * 50

/-- ai_analysis.py lines 350-362: weapons of the mastery mapping that survive the
usage filter (`times_used < 10` is skipped, line 351) and enter the strong
branch (`weapon_score > 30`, line 361). -/
def best_weapons (m : List (String × WeaponCounters)) : List (String × WeaponCounters) :=
  m.filter fun e => !(decide (e.2.times_used < 10)) && decide (30 < weaponScore e.2)

/-- ai_analysis.py lines 350-364: weapons surviving the usage filter that fall in
the `elif weapon_score < 15` branch (line 363), i.e. not strong and weak. -/
def weak_weapons (m : List (String × WeaponCounters)) : List (String × WeaponCounters) :=
  m.filter fun e =>
    !(decide (e.2.times_used < 10)) && !(decide (30 < weaponScore e.2))
      && decide (weaponScore e.2 < 15)

/-- Comparison used by `best_weapons.sort(key=lambda x: x[2], reverse=True)`
(ai_analysis.py line 367): descending weapon score.  Python `sort` is stable and
so is `List.insertionSort`. -/
def strongOrder (a b : String × WeaponCounters) : Prop :=
  weaponScore b.2 ≤ weaponScore a.2

/-- Comparison used by `weak_weapons.sort(key=lambda x: x[2])`
(ai_analysis.py line 368): ascending weapon score. -/
def weakOrder (a b : String × WeaponCounters) : Prop :=
  weaponScore a.2 ≤ weaponScore b.2

instance : DecidableRel strongOrder :=
  fun a b => inferInstanceAs (Decidable (weaponScore b.2 ≤ weaponScore a.2))

instance : DecidableRel weakOrder :=
  fun a b => inferInstanceAs (Decidable (weaponScore a.2 ≤ weaponScore b.2))

instance : IsTotal (String × WeaponCounters) strongOrder :=
  ⟨fun a b => le_total (weaponScore b.2) (weaponScore a.2)⟩

instance : IsTrans (String × WeaponCounters) strongOrder :=
  ⟨fun _ _ _ h1 h2 => le_trans h2 h1⟩

instance : IsTotal (String × WeaponCounters) weakOrder :=
  ⟨fun a b => le_total (weaponScore a.2) (weaponScore b.2)⟩

instance : IsTrans (String × WeaponCounters) weakOrder :=
  ⟨fun _ _ _ h1 h2 => le_trans h1 h2⟩

/-- ai_analysis.py line 367: the strong list after the descending in-place sort. -/
def sorted_best (m : List (String × WeaponCounters)) : List (String × WeaponCounters) :=
  List.insertionSort strongOrder (best_weapons m)

/-- ai_analysis.py line 368: the weak list after the ascending in-place sort. -/
def sorted_weak (m : List (String × WeaponCounters)) : List (String × WeaponCounters) :=
  List.insertionSort weakOrder (weak_weapons m)

/-- ai_analysis.py line 375: the strong weapons actually rendered into the
recommendations text, `for weapon_name, stats, score in best_weapons[:3]`. -/
def recommended_strong (m : List (String × WeaponCounters)) : List (String × WeaponCounters) :=
  (sorted_best m).take 3

/-- ai_analysis.py line 387: the weak weapons actually rendered into the
recommendations text, `for weapon_name, stats, score in weak_weapons[:2]` —
note the slice bound is 2, not 3. -/
def recommended_weak (m : List (String × WeaponCounters)) : List (String × WeaponCounters) :=
  (sorted_weak m).take 2

/-- The hand-computed fixture of the spec:
`{times_used: 20, kills: 10, damage: 3000, headshots: 4}` as a raw summary. -/
def fixtureRaw : RawWeaponSummary :=
  { WeaponName := some "M416"
    TimesUsed := some 20
    Kills := some 10
    DamageDealt := some 3000
    HeadshotKills := some 4
    LongestKill := none }

/-- The fixture after `_process_weapon_stats` processing
(`avg_damage_per_use = 3000 / 20 = 150`). -/
def fixtureW : WeaponCounters := mkCounters fixtureRaw

/-- A one-weapon mastery mapping containing the fixture (used as witness input). -/
def mFix : List (String × WeaponCounters) := [("M416", fixtureW)]

/-- A weak-weapon counter template: used ≥ 10 times, no kills, low damage, so the
score is `avg_damage_per_use * 0.1 < 15`. -/
def weakW (avg : ℚ) : WeaponCounters :=
  { times_used := 10, kills := 0, damage := 0, headshots := 0, longest_kill := 0
    avg_damage_per_use := avg }

/-- A mastery mapping with three weak weapons (scores 1, 2, 3): counterexample
input for the claimed weak top-3. -/
def mWeak3 : List (String × WeaponCounters) :=
  [("UMP", weakW 10), ("Uzi", weakW 20), ("Vector", weakW 30)]

/-- One per-match record of `matches_data`, as assembled by the
`get_trend_analysis` route (pubg_routes.py lines 175-184).  All eight keys are
always present there, so they are plain fields. -/
structure MatchRec where
  kills : ℤ
  damage : ℚ
  rank : ℤ
  survival_time : ℚ
  dbnos : ℤ
  revives : ℤ
  assists : ℤ
  headshots : ℤ
deriving DecidableEq, Repr

/-- The dict returned by `_aggregate_match_data` on nonempty input
(ai_analysis.py lines 627-640). -/
structure AggData where
  total_matches : ℕ
  avg_kills : ℚ
  avg_damage : ℚ
  avg_dbnos : ℚ
  avg_revives : ℚ
  avg_assists : ℚ
  avg_headshots : ℚ
  avg_rank : ℚ
  kill_trend : List ℤ
  rank_trend : List ℤ
  dbnos_trend : List ℤ
  revives_trend : List ℤ
deriving DecidableEq, Repr

/-- ai_analysis.py lines 612-640, `AIAnalysisService._aggregate_match_data`.
`.ok none` models the early `return {}` for empty input (lines 615-616);
all averages divide by `total_matches`, guarded by that early return;
each `[match.get(f, d) for match in matches_data[-10:]]` trend slice is
modelled by `drop (length - 10)` (Python `xs[-10:]`). -/
def aggregate_match_data (ms : List MatchRec) : Except PyErr (Option AggData) :=
  let total_matches := ms.length
  if total_matches = 0 then .ok none else
  let n : ℚ := (total_matches : ℚ)
  (pyDiv (((ms.map (·.kills)).sum : ℤ) : ℚ) n).bind fun avg_kills =>
  (pyDiv ((ms.map (·.damage)).sum) n).bind fun avg_damage =>
  (pyDiv (((ms.map (·.dbnos)).sum : ℤ) : ℚ) n).bind fun avg_dbnos =>
  (pyDiv (((ms.map (·.revives)).sum : ℤ) : ℚ) n).bind fun avg_revives =>
  (pyDiv (((ms.map (·.assists)).sum : ℤ) : ℚ) n).bind fun avg_assists =>
  (pyDiv (((ms.map (·.headshots)).sum : ℤ) : ℚ) n).bind fun avg_headshots =>
  (pyDiv (((ms.map (·.rank)).sum : ℤ) : ℚ) n).bind fun avg_rank =>
  .ok (some
    { total_matches := total_matches
      avg_kills := avg_kills
      avg_damage := avg_damage
      avg_dbnos := avg_dbnos
      avg_revives := avg_revives
      avg_assists := avg_assists
      avg_headshots := avg_headshots
      avg_rank := avg_rank
      kill_trend := (ms.drop (ms.length - 10)).map (·.kills)
      rank_trend := (ms.drop (ms.length - 10)).map (·.rank)
      dbnos_trend := (ms.drop (ms.length - 10)).map (·.dbnos)
      revives_trend := (ms.drop (ms.length - 10)).map (·.revives) })

/-- The value `_aggregate_match_data` produces on nonempty input, written with
total rational division (helper for stating and proving the theorems). -/
def mkAggData (ms : List MatchRec) : AggData :=
  { total_matches := ms.length
    avg_kills := (((ms.map (·.kills)).sum : ℤ) : ℚ) / (ms.length : ℚ)
    avg_damage := ((ms.map (·.damage)).sum) / (ms.length : ℚ)
    avg_dbnos := (((ms.map (·.dbnos)).sum : ℤ) : ℚ) / (ms.length : ℚ)
    avg_revives := (((ms.map (·.revives)).sum : ℤ) : ℚ) / (ms.length : ℚ)
    avg_assists := (((ms.map (·.assists)).sum : ℤ) : ℚ) / (ms.length : ℚ)
    avg_headshots := (((ms.map (·.headshots)).sum : ℤ) : ℚ) / (ms.length : ℚ)
    avg_rank := (((ms.map (·.rank)).sum : ℤ) : ℚ) / (ms.length : ℚ)
    kill_trend := (ms.drop (ms.length - 10)).map (·.kills)
    rank_trend := (ms.drop (ms.length - 10)).map (·.rank)
    dbnos_trend := (ms.drop (ms.length - 10)).map (·.dbnos)
    revives_trend := (ms.drop (ms.length - 10)).map (·.revives) }

/-- A concrete one-match input for witnesses. -/
def mRec0 : MatchRec :=
  { kills := 3, damage := 100, rank := 5, survival_time := 1200
    dbnos := 1, revives := 0, assists := 2, headshots := 1 }

/-- The aggregate of `[mRec0]`, written out (witness value). -/
def agg1 : AggData :=
  { total_matches := 1, avg_kills := 3, avg_damage := 100, avg_dbnos := 1
    avg_revives := 0, avg_assists := 2, avg_headshots := 1, avg_rank := 5
    kill_trend := [3], rank_trend := [5], dbnos_trend := [1], revives_trend := [0] }

/-- The `player` sub-dict built by `_prepare_analysis_data`
(ai_analysis.py lines 81-96): API ints stay ints, times/distances are floats. -/
structure PlayerData where
  kills : ℤ
  damage : ℚ
  survival_time : ℚ
  headshots : ℤ
  rank : ℤ
  ride_distance : ℚ
  walk_distance : ℚ
  weapons_acquired : ℤ
  boosts : ℤ
  heals : ℤ
  dbnos : ℤ
  revives : ℤ
  team_kills : ℤ
  assists : ℤ
deriving DecidableEq, Repr

/-- One teammate sub-dict built by `_prepare_analysis_data`
(ai_analysis.py lines 98-107). -/
structure TeammateData where
  name : String
  kills : ℤ
  damage : ℚ
  survival_time : ℚ
  headshots : ℤ
  dbnos : ℤ
  revives : ℤ
  assists : ℤ
deriving DecidableEq, Repr

/-- ai_analysis.py line 164:
`kill_efficiency = player["kills"] / max(player["survival_time"] / 60, 1) if player["survival_time"] > 0 else 0`.
The inner `/ 60` is division by a nonzero literal and cannot raise. -/
def kill_efficiency (p : PlayerData) : Except PyErr ℚ :=
  if 0 < p.survival_time then pyDiv (p.kills : ℚ) (max (p.survival_time / 60) 1) else .ok 0

/-- ai_analysis.py line 165:
`damage_per_kill = player["damage"] / max(player["kills"], 1) if player["kills"] > 0 else player["damage"]`. -/
def damage_per_kill (p : PlayerData) : Except PyErr ℚ :=
  if 0 < p.kills then pyDiv p.damage ((max p.kills 1 : ℤ) : ℚ) else .ok p.damage

/-- ai_analysis.py line 166:
`headshot_rate = (player["headshots"] / max(player["kills"], 1)) * 100 if player["kills"] > 0 else 0`. -/
def headshot_rate_metric (p : PlayerData) : Except PyErr ℚ :=
  if 0 < p.kills then (pyDiv (p.headshots : ℚ) ((max p.kills 1 : ℤ) : ℚ)).map (· * 100)
  else .ok 0

/-- ai_analysis.py line 167:
`team_total_kills = sum(t["kills"] for t in teammates) + player["kills"] if teammates else player["kills"]`. -/
def team_total_kills (p : PlayerData) (ts : List TeammateData) : ℤ :=
  if ts.isEmpty then p.kills else (ts.map (·.kills)).sum + p.kills

/-- ai_analysis.py line 168:
`kill_contribution = (player["kills"] / max(team_total_kills, 1)) * 100 if team_total_kills > 0 else 100`. -/
def kill_contribution (p : PlayerData) (ts : List TeammateData) : Except PyErr ℚ :=
  if 0 < team_total_kills p ts then
    (pyDiv (p.kills : ℚ) ((max (team_total_kills p ts) 1 : ℤ) : ℚ)).map (· * 100)
  else .ok 100

/-- ai_analysis.py line 217, embedded in the prompt text:
`player["kills"] / max(player["dbnos"], 1) * 100`. -/
def dbno_conversion (p : PlayerData) : Except PyErr ℚ :=
  (pyDiv (p.kills : ℚ) ((max p.dbnos 1 : ℤ) : ℚ)).map (· * 100)

/-- The derived metrics computed at the top of `_create_analysis_prompt`
(ai_analysis.py lines 163-168 and 217). -/
structure PromptMetrics where
  kill_efficiency : ℚ
  damage_per_kill : ℚ
  headshot_rate : ℚ
  team_total_kills : ℤ
  kill_contribution : ℚ
  dbno_conversion : ℚ
deriving DecidableEq, Repr

/-- All derived-metric computations of `_create_analysis_prompt`, sequenced so
that any `ZeroDivisionError` would surface as `.error`. -/
def prompt_metrics (p : PlayerData) (ts : List TeammateData) : Except PyErr PromptMetrics :=
  (kill_efficiency p).bind fun ke =>
  (damage_per_kill p).bind fun dpk =>
  (headshot_rate_metric p).bind fun hr =>
  (kill_contribution p ts).bind fun kc =>
  (dbno_conversion p).bind fun dc =>
  .ok { kill_efficiency := ke, damage_per_kill := dpk, headshot_rate := hr
        team_total_kills := team_total_kills p ts, kill_contribution := kc
        dbno_conversion := dc }

/-- ai_analysis.py lines 252-253, per-teammate derived metrics:
`teammate["damage"] / max(teammate["kills"], 1) if teammate["kills"] > 0 else teammate["damage"]`
and `(teammate["headshots"] / max(teammate["kills"], 1)) * 100 if teammate["kills"] > 0 else 0`. -/
def teammate_metrics (t : TeammateData) : Except PyErr (ℚ × ℚ) :=
  (if 0 < t.kills then pyDiv t.damage ((max t.kills 1 : ℤ) : ℚ) else .ok t.damage).bind
    fun dpk =>
  (if 0 < t.kills then (pyDiv (t.headshots : ℚ) ((max t.kills 1 : ℤ) : ℚ)).map (· * 100)
   else .ok 0).bind fun hr =>
  .ok (dpk, hr)

/-- ai_analysis.py lines 354-359 instrumented for `ZeroDivisionError`:
the kill-rate and headshot-rate divisions of `_generate_weapon_recommendations`
and the score assembled from them. -/
def weapon_metrics (w : WeaponCounters) : Except PyErr (ℚ × ℚ × ℚ) :=
  (pyDiv (w.kills : ℚ) ((max w.times_used 1 : ℤ) : ℚ)).bind fun kill_rate =>
  (if 0 < w.kills then pyDiv (w.headshots : ℚ) ((max w.kills 1 : ℤ) : ℚ) else .ok 0).bind
    fun headshot_rate =>
  .ok (kill_rate, headshot_rate,
       kill_rate * 100 + w.avg_damage_per_use * (1 / 10) + headshot_rate * 50)

/-- The participant `stats` dict read by
`PUBGAPIService.extract_match_weapons_data` (pubg_api.py lines 111-121), with
`.get` defaults; note the source defaults `kills` to `1` in this function. -/
structure RawParticipantStats where
  weaponsAcquired : Option ℤ
  headshotKills : Option ℤ
  kills : Option ℤ
  longestKill : Option ℚ
  damageDealt : Option ℚ
deriving DecidableEq, Repr

/-- The `weapon_data` dict of pubg_api.py lines 114-121. -/
structure ExtractedWeaponData where
  weapons_acquired : ℤ
  headshot_kills : ℤ
  total_kills : ℤ
  longest_kill : ℚ
  damage_dealt : ℚ
  headshot_rate : ℚ
deriving DecidableEq, Repr

/-- pubg_api.py lines 114-121: the weapon-stat extraction for a found
participant; `headshot_rate` is
`(stats.get("headshotKills", 0) / max(stats.get("kills", 1), 1)) * 100`. -/
def extract_match_weapons_stats (s : RawParticipantStats) : Except PyErr ExtractedWeaponData :=
  (pyDiv ((s.headshotKills.getD 0 : ℤ) : ℚ) ((max (s.kills.getD 1) 1 : ℤ) : ℚ)).map
    fun hr =>
      { weapons_acquired := s.weaponsAcquired.getD 0
        headshot_kills := s.headshotKills.getD 0
        total_kills := s.kills.getD 0
        longest_kill := s.longestKill.getD 0
        damage_dealt := s.damageDealt.getD 0
        headshot_rate := hr * 100 }

/-- Innermost level of the weapon-mastery payload: `none` models a missing
`weaponSummaries` key (its access raises `KeyError`, caught by the handler). -/
structure PayloadAttrs where
  weaponSummaries : Option (List RawWeaponSummary)
deriving DecidableEq, Repr

/-- Value of the payload's `data` key: `none` models a missing `attributes` key. -/
structure PayloadData where
  attributes : Option PayloadAttrs
deriving DecidableEq, Repr

/-- The weapon-mastery payload handed to `_process_weapon_stats`:
`data = none` models `"data" not in weapon_stats`. -/
structure WeaponStatsPayload where
  data : Option PayloadData
deriving DecidableEq, Repr

/-- The `weaponSummaries` list of a payload, when every access succeeds. -/
def wellFormedSummaries (p : Option WeaponStatsPayload) : Option (List RawWeaponSummary) :=
  (((p.bind (·.data)).bind (·.attributes)).bind (·.weaponSummaries))

/-- The sort key of ai_analysis.py line 129: `x.get("TimesUsed", 0)`. -/
def timesUsedKey (w : RawWeaponSummary) : ℤ := w.TimesUsed.getD 0

/-- Comparison of `sorted(weapons_data, key=lambda x: x.get("TimesUsed", 0), reverse=True)`:
descending `TimesUsed`; Python `sorted` is stable, as is `List.insertionSort`. -/
def timesOrder (a b : RawWeaponSummary) : Prop := timesUsedKey b ≤ timesUsedKey a

instance : DecidableRel timesOrder :=
  fun a b => inferInstanceAs (Decidable (timesUsedKey b ≤ timesUsedKey a))

instance : IsTotal RawWeaponSummary timesOrder :=
  ⟨fun a b => le_total (timesUsedKey b) (timesUsedKey a)⟩

instance : IsTrans RawWeaponSummary timesOrder :=
  ⟨fun _ _ _ h1 h2 => le_trans h2 h1⟩

/-- ai_analysis.py line 129: `top_weapons = sorted(..., reverse=True)[:5]`. -/
def top_weapons (ws : List RawWeaponSummary) : List RawWeaponSummary :=
  (List.insertionSort timesOrder ws).take 5

/-- ai_analysis.py lines 119-146, `AIAnalysisService._process_weapon_stats`.
Result is the ordered association list of `processed_weapons` insertions
(lines 131-140); a falsy/`"data"`-less payload returns `{}` early (lines
122-123) and any `KeyError` on the nested access of line 126 is caught by the
`except` (lines 144-146), also yielding `{}`.  (A Python dict would collapse
duplicate `WeaponName` keys, so its size is at most the length of this list.) -/
def process_weapon_stats (payload : Option WeaponStatsPayload) : List (String × WeaponCounters) :=
  match payload with
  | none => []
  | some p =>
    match p.data with
    | none => []
    | some d =>
      match d.attributes with
      | none => []
      | some a =>
        match a.weaponSummaries with
        | none => []
        | some ws => (top_weapons ws).map fun w => (w.WeaponName.getD "Unknown", mkCounters w)

/-- A raw summary with the given name and usage count and no other keys. -/
def rawUse (name : String) (t : ℤ) : RawWeaponSummary :=
  { WeaponName := some name, TimesUsed := some t, Kills := none, DamageDealt := none
    HeadshotKills := none, LongestKill := none }

/-- Six raw summaries with distinct usage counts (witness input). -/
def rawList6 : List RawWeaponSummary :=
  [rawUse "A" 10, rawUse "B" 60, rawUse "C" 30, rawUse "D" 40, rawUse "E" 50, rawUse "F" 20]

/-- A payload whose `data.attributes` key is missing (malformed-payload witness). -/
def badPayload : Option WeaponStatsPayload := some { data := some { attributes := none } }

/-- State of an `AIAnalysisService` after `__init__` (ai_analysis.py lines
14-49): which provider was selected and the retained key (`none` = unset). -/
structure AIService where
  use_gemini : Bool
  api_key : Option String
deriving DecidableEq, Repr

/-- ai_analysis.py lines 14-49, `AIAnalysisService.__init__`.  Gemini is
preferred when its key is set and the library imported; otherwise OpenAI when
its key is set and its import works; otherwise no key is retained.  An unset or
empty environment variable is falsy, modelled as `none`. -/
def mkAIService (gemini_key openai_key : Option String)
    (gemini_available openai_import_ok : Bool) : AIService :=
  if gemini_key.isSome && gemini_available then
    { use_gemini := true, api_key := gemini_key }
  else if openai_key.isSome then
    if openai_import_ok then { use_gemini := false, api_key := openai_key }
    else { use_gemini := false, api_key := none }
  else { use_gemini := false, api_key := none }

/-- ai_analysis.py line 54: the fixed message returned when no API key is set. -/
def notConfiguredMessage : String := "AI 분석을 위한 API 키가 설정되지 않았습니다."

/-- ai_analysis.py lines 557-566: the canned quota-exceeded fallback text of the
second (unreachable) `except` clause of `_call_gemini_api`. -/
def quotaFallbackMessage : String :=
  "\n🚫 일일 AI 분석 할당량을 초과했습니다.\n\n📊 기본 분석:\n이 매치에서는 게임 통계를 통해 기본적인 성과를 확인할 수 있습니다.\n- 순위, 킬 수, 데미지, 생존 시간 등을 참고하여 플레이를 개선해보세요.\n- 내일 다시 상세한 AI 분석을 받아보실 수 있습니다.\n\n💡 팁: 할당량 절약을 위해 가장 중요한 매치만 분석해보세요!\n"

/-- ai_analysis.py lines 51-76, `analyze_match_performance`, abstracting the
provider interaction as `provider` (the outcome of the selected remote call).
Result: the returned string (if any) paired with whether a provider call was
made.  With no API key the function returns the fixed message before any data
preparation (lines 53-54); otherwise the `try` body returns the provider text,
and any exception is caught and rendered (lines 74-76). -/
def analyze_match_performance (svc : AIService) (provider : Except String String) :
    Option String × Bool :=
  match svc.api_key with
  | none => (some notConfiguredMessage, false)
  | some _ =>
    match provider with
    | .ok r => (some r, true)
    | .error e => (some ("분석 중 오류가 발생했습니다: " ++ e), true)

/-- ai_analysis.py lines 588-610, `analyze_player_trends`: with no API key or
empty `matches_data` it returns `None` (lines 590-591); otherwise it returns
the provider text, and any exception yields `None` (lines 608-610). -/
def analyze_player_trends (svc : AIService) (matches_data : List MatchRec)
    (provider : Except String String) : Option String × Bool :=
  if svc.api_key.isNone || matches_data.isEmpty then (none, false)
  else
    match provider with
    | .ok r => (some r, true)
    | .error _ => (none, true)

/-- ai_analysis.py lines 521-568, `_call_gemini_api`, with the three external
interactions abstracted: the Gemini call (`.error` = exception, message
attached), the Ollama availability probe `GET /api/tags` (`.ok` = its status
code, `.error` = exception), and `_call_ollama_api` (which raises on non-200
status or empty text, folded into `.error`).

Control flow per Python semantics: a raised exception runs the FIRST matching
`except` clause only.  The first `except Exception` (lines 538-552) tries the
Ollama fallback; when the probe is not status 200, or the probe or the fallback
call raises, the clause finishes with no `return`, so the function returns
`None`.  The second `except Exception` (lines 554-568), which holds the
quota-exceeded check and `quotaFallbackMessage`, is therefore unreachable. -/
def call_gemini_api (gemini : Except String String) (probe : Except String ℤ)
    (ollama : Except String String) : Option String :=
  match gemini with
  | .ok text => some text.trim
  | .error _ =>
    match probe with
    | .ok status =>
      if status == 200 then
        match ollama with
        | .ok r => some r
        | .error _ => none
      else none
    | .error _ => none

/-- One element of a match detail's `included` array, projected to the fields
the `analyze_match` route reads (`item["type"]`,
`item["attributes"]["stats"]["playerId"]`, `...["winPlace"]`). -/
structure IncludedItem where
  type : String
  playerId : String
  winPlace : ℤ
deriving DecidableEq, Repr

/-- A fetched match detail (pubg_routes.py line 100): the `included` array; the
`data.attributes` match info is only forwarded to the (abstracted) AI call. -/
structure MatchDetails where
  included : List IncludedItem
deriving DecidableEq, Repr

/-- The HTTP outcome of the `analyze_match` route. -/
inductive Response where
  | json (match_id : String) (analysis : Option String) (teammates_count : ℕ)
  | error (status : ℕ) (detail : String)
deriving DecidableEq, Repr

/-- Status code of a `Response` (FastAPI returns 200 for a plain dict). -/
def Response.status : Response → ℕ
  | .json _ _ _ => 200
  | .error s _ => s

/-- pubg_routes.py lines 97-146: the body of the `try` block of
`analyze_match`.  A raised `HTTPException` is `throw (status, detail)`;
`md = none` models a falsy `get_match_details` result; `analysis` abstracts
`ai_service.analyze_match_performance` (which handles its own exceptions and
never raises). -/
def analyze_match_try (match_id : String) (md : Option MatchDetails) (player_id : String)
    (analysis : Option String) : Except (ℕ × String) Response :=
  match md with
  | none => .error (404, "매치 정보를 찾을 수 없습니다.")
  | some details =>
    let participants := details.included.filter fun it => it.type == "participant"
    if participants.isEmpty then .error (404, "매치 참가자 정보를 찾을 수 없습니다.")
    else
      match participants.find? fun p => p.playerId == player_id with
      | none => .error (404, "해당 플레이어의 매치 정보를 찾을 수 없습니다.")
      | some pp =>
        let teammates := participants.filter fun p =>
          p.winPlace == pp.winPlace && p.playerId != pp.playerId
        .ok (.json match_id analysis teammates.length)

/-- pubg_routes.py lines 92-150, the full `analyze_match` handler.  FastAPI's
`HTTPException` subclasses `Exception`, so every `HTTPException` raised inside
the `try` block — including the three 404s — is caught by the
`except Exception` at line 148 and re-raised as a 500 whose detail embeds
`str(e)` (Starlette renders it as `"<status>: <detail>"`). -/
def analyze_match (match_id : String) (md : Option MatchDetails) (player_id : String)
    (analysis : Option String) : Response :=
  match analyze_match_try match_id md player_id analysis with
  | .ok r => r
  | .error (s, d) =>
    .error 500 ("분석 중 오류가 발생했습니다: " ++ toString s ++ ": " ++ d)

/-- A match detail whose only participant is a different player (failing input
for the participant-not-found claim). -/
def exMatchDetails : MatchDetails :=
  { included := [{ type := "participant", playerId := "account.other", winPlace := 5 }] }

/-! ## Helper lemmas -/

theorem pyDiv_of_ne (a : ℚ) {b : ℚ} (h : b ≠ 0) : pyDiv a b = .ok (a / b) := by
  simp [pyDiv, h]

theorem pyDiv_map_ok {α : Type} (a : ℚ) {b : ℚ} (f : ℚ → α) (h : b ≠ 0) :
    (pyDiv a b).map f = .ok (f (a / b)) := by
  rw [pyDiv_of_ne a h]; rfl

theorem maxq_ne_zero (x : ℚ) : max x 1 ≠ 0 :=
  ne_of_gt (lt_of_lt_of_le one_pos (le_max_right x 1))

theorem max_int_cast_ne_zero (k : ℤ) : ((max k 1 : ℤ) : ℚ) ≠ 0 := by
  have h1 : (1 : ℤ) ≤ max k 1 := le_max_right k 1
  have : (0 : ℤ) < max k 1 := lt_of_lt_of_le Int.zero_lt_one h1
  exact_mod_cast ne_of_gt this

theorem kill_efficiency_ok (p : PlayerData) : ∃ r, kill_efficiency p = .ok r := by
  unfold kill_efficiency
  split
  · exact ⟨_, pyDiv_of_ne _ (maxq_ne_zero _)⟩
  · exact ⟨_, rfl⟩

theorem damage_per_kill_ok (p : PlayerData) : ∃ r, damage_per_kill p = .ok r := by
  unfold damage_per_kill
  split
  · exact ⟨_, pyDiv_of_ne _ (max_int_cast_ne_zero _)⟩
  · exact ⟨_, rfl⟩

theorem headshot_rate_metric_ok (p : PlayerData) : ∃ r, headshot_rate_metric p = .ok r := by
  unfold headshot_rate_metric
  split
  · exact ⟨_, pyDiv_map_ok _ _ (max_int_cast_ne_zero _)⟩
  · exact ⟨_, rfl⟩

theorem kill_contribution_ok (p : PlayerData) (ts : List TeammateData) :
    ∃ r, kill_contribution p ts = .ok r := by
  unfold kill_contribution
  split
  · exact ⟨_, pyDiv_map_ok _ _ (max_int_cast_ne_zero _)⟩
  · exact ⟨_, rfl⟩

theorem dbno_conversion_ok (p : PlayerData) : ∃ r, dbno_conversion p = .ok r :=
  ⟨_, pyDiv_map_ok _ _ (max_int_cast_ne_zero _)⟩

theorem aggregate_match_data_of_ne (ms : List MatchRec) (h : ms.length ≠ 0) :
    aggregate_match_data ms = .ok (some (mkAggData ms)) := by
  have hn : ((ms.length : ℚ)) ≠ 0 := by exact_mod_cast h
  simp [aggregate_match_data, h, pyDiv_of_ne _ hn, Except.bind, mkAggData]

/-! ## Claim theorems -/

/-- C6: applying the match-data aggregation to an empty sequence of match
records raises no exception and returns the empty result (the source's `{}`,
modelled as `none`), with no averages computed. -/
theorem aggregate_match_data_empty : aggregate_match_data [] = .ok none := rfl

/-- C5: for every sequence of per-match summary records, each per-field
trailing trend sequence produced by the aggregation (kills, rank, dbnos,
revives) has length `min (len sequence) 10` and equals the last 10 (or fewer)
per-match values of that field in their original order. -/
theorem trend_slices (ms : List MatchRec) (a : AggData)
    (h : aggregate_match_data ms = .ok (some a)) :
    (a.kill_trend.length = min ms.length 10 ∧
      a.kill_trend = (ms.map (·.kills)).drop (ms.length - 10)) ∧
    (a.rank_trend.length = min ms.length 10 ∧
      a.rank_trend = (ms.map (·.rank)).drop (ms.length - 10)) ∧
    (a.dbnos_trend.length = min ms.length 10 ∧
      a.dbnos_trend = (ms.map (·.dbnos)).drop (ms.length - 10)) ∧
    (a.revives_trend.length = min ms.length 10 ∧
      a.revives_trend = (ms.map (·.revives)).drop (ms.length - 10)) := by
  have hne : ms.length ≠ 0 := by
    intro h0
    rw [List.length_eq_zero.mp h0] at h
    simp [aggregate_match_data] at h
  rw [aggregate_match_data_of_ne ms hne] at h
  simp only [Except.ok.injEq, Option.some.injEq] at h
  subst h
  refine ⟨⟨?_, ?_⟩, ⟨?_, ?_⟩, ⟨?_, ?_⟩, ⟨?_, ?_⟩⟩ <;>
    simp [mkAggData, List.length_drop, List.map_drop] <;> omega

/-- Witness for C5 at the concrete input `[mRec0]`. -/
theorem trend_slices_witness :
    (agg1.kill_trend.length = min ([mRec0] : List MatchRec).length 10 ∧
      agg1.kill_trend = (([mRec0] : List MatchRec).map (·.kills)).drop
        (([mRec0] : List MatchRec).length - 10)) ∧
    (agg1.rank_trend.length = min ([mRec0] : List MatchRec).length 10 ∧
      agg1.rank_trend = (([mRec0] : List MatchRec).map (·.rank)).drop
        (([mRec0] : List MatchRec).length - 10)) ∧
    (agg1.dbnos_trend.length = min ([mRec0] : List MatchRec).length 10 ∧
      agg1.dbnos_trend = (([mRec0] : List MatchRec).map (·.dbnos)).drop
        (([mRec0] : List MatchRec).length - 10)) ∧
    (agg1.revives_trend.length = min ([mRec0] : List MatchRec).length 10 ∧
      agg1.revives_trend = (([mRec0] : List MatchRec).map (·.revives)).drop
        (([mRec0] : List MatchRec).length - 10)) :=
  trend_slices [mRec0] agg1 (by norm_num [aggregate_match_data, pyDiv, mRec0, agg1, Except.bind])

/-- C9: every division in the stat aggregation and the derived-metric
computations (per-match averages, weapon kill rate and headshot rate, damage
per kill, kill contribution, DBNO conversion, avg damage per use, and the
extracted match headshot rate) has a denominator guarded by `max(count, 1)` or
by the empty-input early return, so no input ever raises `ZeroDivisionError`. -/
theorem no_zero_division_in_metrics :
    (∀ ms : List MatchRec, ∃ r, aggregate_match_data ms = .ok r) ∧
    (∀ (p : PlayerData) (ts : List TeammateData), ∃ r, prompt_metrics p ts = .ok r) ∧
    (∀ t : TeammateData, ∃ r, teammate_metrics t = .ok r) ∧
    (∀ w : WeaponCounters,
      weapon_metrics w = .ok (weaponKillRate w, weaponHeadshotRate w, weaponScore w)) ∧
    (∀ w : RawWeaponSummary, avg_damage_per_use_div w = .ok (mkCounters w).avg_damage_per_use) ∧
    (∀ s : RawParticipantStats, ∃ r, extract_match_weapons_stats s = .ok r) := by
  refine ⟨?_, ?_, ?_, ?_, ?_, ?_⟩
  · intro ms
    by_cases h : ms.length = 0
    · exact ⟨none, by simp [aggregate_match_data, h]⟩
    · exact ⟨some (mkAggData ms), aggregate_match_data_of_ne ms h⟩
  · intro p ts
    obtain ⟨ke, hke⟩ := kill_efficiency_ok p
    obtain ⟨dpk, hdpk⟩ := damage_per_kill_ok p
    obtain ⟨hr, hhr⟩ := headshot_rate_metric_ok p
    obtain ⟨kc, hkc⟩ := kill_contribution_ok p ts
    obtain ⟨dc, hdc⟩ := dbno_conversion_ok p
    refine ⟨{ kill_efficiency := ke, damage_per_kill := dpk, headshot_rate := hr
              team_total_kills := team_total_kills p ts, kill_contribution := kc
              dbno_conversion := dc }, ?_⟩
    unfold prompt_metrics
    rw [hke, hdpk, hhr, hkc, hdc]
    rfl
  · intro t
    unfold teammate_metrics
    by_cases h : 0 < t.kills
    · rw [if_pos h, if_pos h, pyDiv_of_ne _ (max_int_cast_ne_zero _),
        pyDiv_map_ok _ _ (max_int_cast_ne_zero _)]
      exact ⟨_, rfl⟩
    · rw [if_neg h, if_neg h]
      exact ⟨_, rfl⟩
  · intro w
    unfold weapon_metrics weaponScore weaponKillRate weaponHeadshotRate
    by_cases h : 0 < w.kills
    · rw [if_pos h, if_pos h, pyDiv_of_ne _ (max_int_cast_ne_zero _),
        pyDiv_of_ne _ (max_int_cast_ne_zero _)]
      rfl
    · rw [if_neg h, if_neg h, pyDiv_of_ne _ (max_int_cast_ne_zero _)]
      rfl
  · intro w
    exact pyDiv_of_ne _ (max_int_cast_ne_zero _)
  · intro s
    exact ⟨_, pyDiv_map_ok _ _ (max_int_cast_ne_zero _)⟩

/-- C1: contrary to the claim, a match detail lacking a participant with the
requested player identifier makes `analyze_match` answer HTTP 500, not 404:
the `HTTPException(404)` raised at pubg_routes.py line 119 is itself an
`Exception`, so the handler's own `except Exception` (line 148) catches it and
re-raises it as a 500.  Evaluated at a concrete failing input. -/
theorem analyze_match_participant_missing_is_500 :
    analyze_match "m-1" (some exMatchDetails) "account.p1" none =
      .error 500 "분석 중 오류가 발생했습니다: 404: 해당 플레이어의 매치 정보를 찾을 수 없습니다." ∧
    (analyze_match "m-1" (some exMatchDetails) "account.p1" none).status = 500 := by
  exact ⟨rfl, rfl⟩

/-- C8: contrary to the claim, when the Gemini call fails with a
quota-exceeded message ("429"/"quota") and the Ollama fallback also fails
(probe raises, probe not 200, or the fallback call raises), `_call_gemini_api`
returns `None`: the first `except Exception` swallows the error and ends
without a `return`, and the second `except Exception` holding
`quotaFallbackMessage` is unreachable. -/
theorem quota_fallback_never_returned :
    call_gemini_api (.error "429 You exceeded your current quota")
      (.error "Connection refused") (.ok "unused") = none ∧
    call_gemini_api (.error "429 You exceeded your current quota")
      (.ok 200) (.error "Ollama API returned status 500") = none ∧
    call_gemini_api (.error "429 You exceeded your current quota")
      (.ok 404) (.ok "unused") = none ∧
    some quotaFallbackMessage ≠ (none : Option String) :=
  ⟨rfl, rfl, rfl, by simp⟩

/-- C7 (amended): with neither provider credential configured, the per-match
analysis returns the fixed "not configured" message without calling any
provider, while the multi-match trend analysis returns `None` — not the fixed
message — also without raising or calling any provider. -/
theorem not_configured_behavior (g o : Bool) (provider : Except String String)
    (matches_data : List MatchRec) :
    analyze_match_performance (mkAIService none none g o) provider =
      (some notConfiguredMessage, false) ∧
    analyze_player_trends (mkAIService none none g o) matches_data provider =
      (none, false) := by
  simp [mkAIService, analyze_match_performance, analyze_player_trends]

/-- Counterexample to C7 as stated: a trend-analysis call on a client with no
credential returns `None`, not the fixed "not configured" message. -/
theorem not_configured_trend_counterexample :
    analyze_player_trends (mkAIService none none true true) [mRec0] (.ok "resp") =
      (none, false) ∧
    (none : Option String) ≠ some notConfiguredMessage :=
  ⟨rfl, by simp⟩

theorem fixtureW_score : weaponScore fixtureW = 85 := by
  norm_num [weaponScore, weaponKillRate, weaponHeadshotRate, fixtureW, mkCounters, fixtureRaw]

theorem weakW_score (avg : ℚ) : weaponScore (weakW avg) = avg * (1 / 10) := by
  norm_num [weaponScore, weaponKillRate, weaponHeadshotRate, weakW]

theorem mem_best_mFix : ("M416", fixtureW) ∈ best_weapons mFix := by
  refine List.mem_filter.mpr ⟨List.Mem.head _, ?_⟩
  simp only [Bool.and_eq_true, Bool.not_eq_true', decide_eq_false_iff_not, decide_eq_true_eq]
  constructor
  · norm_num [fixtureW, mkCounters, fixtureRaw]
  · rw [fixtureW_score]
    norm_num

theorem recommended_strong_length (m : List (String × WeaponCounters)) :
    (recommended_strong m).length = min 3 (best_weapons m).length := by
  rw [recommended_strong, List.length_take, sorted_best, List.length_insertionSort]

theorem recommended_weak_length (m : List (String × WeaponCounters)) :
    (recommended_weak m).length = min 2 (weak_weapons m).length := by
  rw [recommended_weak, List.length_take, sorted_weak, List.length_insertionSort]

theorem weak_weapons_mWeak3 : weak_weapons mWeak3 = mWeak3 := by
  rw [weak_weapons, List.filter_eq_self]
  intro e he
  simp only [Bool.and_eq_true, Bool.not_eq_true', decide_eq_false_iff_not, decide_eq_true_eq]
  rcases he with _ | ⟨_, _ | ⟨_, _ | ⟨_, h⟩⟩⟩
  · norm_num [weakW, weaponScore, weaponKillRate, weaponHeadshotRate]
  · norm_num [weakW, weaponScore, weaponKillRate, weaponHeadshotRate]
  · norm_num [weakW, weaponScore, weaponKillRate, weaponHeadshotRate]
  · cases h

/-- C2: for every weapon record passing the usage filter (`times_used ≥ 10`),
the scoring computes `kill_rate = kills / times_used`,
`headshot_rate = headshots / kills` when `kills > 0` (else 0), and
`score = 100*kill_rate + 0.1*avg_damage_per_use + 50*headshot_rate`; the spec
fixture `{times_used: 20, kills: 10, damage: 3000, headshots: 4}` scores 85. -/
theorem weapon_score_formula (w : WeaponCounters) (h : (10 : ℤ) ≤ w.times_used) :
    weaponKillRate w = (w.kills : ℚ) / (w.times_used : ℚ) ∧
    (0 < w.kills → weaponHeadshotRate w = (w.headshots : ℚ) / (w.kills : ℚ)) ∧
    (¬ 0 < w.kills → weaponHeadshotRate w = 0) ∧
    weaponScore w =
      100 * weaponKillRate w + (1 / 10) * w.avg_damage_per_use + 50 * weaponHeadshotRate w ∧
    weaponScore fixtureW = 85 := by
  refine ⟨?_, ?_, ?_, ?_, ?_⟩
  · unfold weaponKillRate
    rw [max_eq_left (by omega : (1 : ℤ) ≤ w.times_used)]
  · intro hk
    unfold weaponHeadshotRate
    rw [if_pos hk, max_eq_left (by omega : (1 : ℤ) ≤ w.kills)]
  · intro hk
    unfold weaponHeadshotRate
    rw [if_neg hk]
  · unfold weaponScore
    ring
  · norm_num [weaponScore, weaponKillRate, weaponHeadshotRate, fixtureW, mkCounters, fixtureRaw]

/-- Witness for C2 at the spec fixture. -/
theorem weapon_score_formula_witness :
    (10 : ℤ) ≤ fixtureW.times_used ∧ weaponScore fixtureW = 85 :=
  ⟨by decide, (weapon_score_formula fixtureW (by decide)).2.2.2.2⟩

/-- C3: every weapon whose `times_used` is strictly below 10 is excluded from
both the strong and the weak partitions, regardless of its score; i.e. any
member of either partition has `times_used ≥ 10`. -/
theorem usage_filter_excludes (m : List (String × WeaponCounters))
    (e : String × WeaponCounters) (h : e ∈ best_weapons m ∨ e ∈ weak_weapons m) :
    10 ≤ e.2.times_used := by
  rcases h with h | h
  · have h2 := (List.mem_filter.mp h).2
    simp only [Bool.and_eq_true, Bool.not_eq_true', decide_eq_false_iff_not,
      decide_eq_true_eq] at h2
    omega
  · have h2 := (List.mem_filter.mp h).2
    simp only [Bool.and_eq_true, Bool.not_eq_true', decide_eq_false_iff_not,
      decide_eq_true_eq] at h2
    omega

/-- Witness for C3: the fixture weapon is in the strong partition of `mFix`
and indeed has `times_used ≥ 10`. -/
theorem usage_filter_excludes_witness :
    ("M416", fixtureW) ∈ best_weapons mFix ∧ (10 : ℤ) ≤ fixtureW.times_used :=
  ⟨mem_best_mFix, usage_filter_excludes mFix ("M416", fixtureW) (Or.inl mem_best_mFix)⟩

/-- C4 (amended): the ranking partitions usage-filtered weapons into a strong
set (`score > 30`) and a weak set (`score < 15`), sorts the strong set
descending and the weak set ascending by score, and presents the top-3 of the
strong set but only the top-2 of the weak set (`weak_weapons[:2]`,
ai_analysis.py line 387). -/
theorem weapon_partition_spec (m : List (String × WeaponCounters)) :
    (∀ e ∈ recommended_strong m,
      e ∈ m ∧ ¬ e.2.times_used < 10 ∧ 30 < weaponScore e.2) ∧
    (∀ e ∈ recommended_weak m,
      e ∈ m ∧ ¬ e.2.times_used < 10 ∧ weaponScore e.2 < 15) ∧
    (recommended_strong m).Pairwise strongOrder ∧
    (recommended_weak m).Pairwise weakOrder ∧
    (recommended_strong m).length = min 3 (best_weapons m).length ∧
    (recommended_weak m).length = min 2 (weak_weapons m).length ∧
    (∀ x ∈ recommended_strong m, ∀ y ∈ (sorted_best m).drop 3,
      weaponScore y.2 ≤ weaponScore x.2) ∧
    (∀ x ∈ recommended_weak m, ∀ y ∈ (sorted_weak m).drop 2,
      weaponScore x.2 ≤ weaponScore y.2) := by
  have hps : (sorted_best m).Pairwise strongOrder := List.sorted_insertionSort strongOrder _
  have hpw : (sorted_weak m).Pairwise weakOrder := List.sorted_insertionSort weakOrder _
  refine ⟨?_, ?_, ?_, ?_, recommended_strong_length m, recommended_weak_length m, ?_, ?_⟩
  · intro e he
    have hm : e ∈ best_weapons m :=
      (List.mem_insertionSort strongOrder).mp (List.mem_of_mem_take he)
    have h2 := (List.mem_filter.mp hm).2
    simp only [Bool.and_eq_true, Bool.not_eq_true', decide_eq_false_iff_not,
      decide_eq_true_eq] at h2
    exact ⟨(List.mem_filter.mp hm).1, h2.1, h2.2⟩
  · intro e he
    have hm : e ∈ weak_weapons m :=
      (List.mem_insertionSort weakOrder).mp (List.mem_of_mem_take he)
    have h2 := (List.mem_filter.mp hm).2
    simp only [Bool.and_eq_true, Bool.not_eq_true', decide_eq_false_iff_not,
      decide_eq_true_eq] at h2
    exact ⟨(List.mem_filter.mp hm).1, h2.1.1, h2.2⟩
  · exact hps.sublist (List.take_sublist 3 _)
  · exact hpw.sublist (List.take_sublist 2 _)
  · have h := hps
    rw [← List.take_append_drop 3 (sorted_best m)] at h
    exact fun x hx y hy => (List.pairwise_append.mp h).2.2 x hx y hy
  · have h := hpw
    rw [← List.take_append_drop 2 (sorted_weak m)] at h
    exact fun x hx y hy => (List.pairwise_append.mp h).2.2 x hx y hy

/-- Counterexample to C4 as stated: with three weak weapons (all usage-filtered,
scores 1, 2, 3 — all `< 15`), the recommendations present only 2 of them,
not the claimed top-3. -/
theorem weapon_partition_top3_counterexample :
    (weak_weapons mWeak3).length = 3 ∧ (recommended_weak mWeak3).length = 2 := by
  have h3 : (weak_weapons mWeak3).length = 3 := by rw [weak_weapons_mWeak3]; rfl
  exact ⟨h3, by rw [recommended_weak_length, h3]; rfl⟩

/-- Witness for C4 (amended) at the concrete mapping `mFix`. -/
theorem weapon_partition_spec_witness :
    (("M416", fixtureW) ∈ mFix ∧ ¬ fixtureW.times_used < 10 ∧ 30 < weaponScore fixtureW) ∧
    (recommended_strong mFix).length = min 3 (best_weapons mFix).length := by
  have hsorted : ("M416", fixtureW) ∈ recommended_strong mFix := by
    have hlen : (recommended_strong mFix).length = min 3 (best_weapons mFix).length :=
      (weapon_partition_spec mFix).2.2.2.2.1
    have hb : best_weapons mFix = [("M416", fixtureW)] :=
      List.filter_eq_self.mpr (fun a ha => by
        rcases ha with _ | ⟨_, h⟩
        · simp only [Bool.and_eq_true, Bool.not_eq_true', decide_eq_false_iff_not,
            decide_eq_true_eq]
          constructor
          · norm_num [fixtureW, mkCounters, fixtureRaw]
          · rw [fixtureW_score]; norm_num
        · cases h)
    have : recommended_strong mFix = [("M416", fixtureW)] := by
      rw [recommended_strong, sorted_best, hb]
      rfl
    rw [this]
    exact List.Mem.head _
  exact ⟨(weapon_partition_spec mFix).1 ("M416", fixtureW) hsorted,
    (weapon_partition_spec mFix).2.2.2.2.1⟩

/-- C10: the weapon-statistics preprocessing keeps at most 5 weapons — the 5
with the largest `TimesUsed` (any weapon it drops has a `TimesUsed` key no
larger than every kept one) — and any malformed payload (falsy, missing
`data`, `attributes` or `weaponSummaries`) yields the empty mapping instead of
an exception. -/
theorem process_weapon_stats_spec :
    (∀ p, (process_weapon_stats p).length ≤ 5) ∧
    (∀ ws, (top_weapons ws).length = min 5 ws.length) ∧
    (∀ ws, ∀ x ∈ top_weapons ws, ∀ y ∈ (List.insertionSort timesOrder ws).drop 5,
      timesUsedKey y ≤ timesUsedKey x) ∧
    (∀ p, wellFormedSummaries p = none → process_weapon_stats p = []) := by
  have hlen : ∀ ws : List RawWeaponSummary, (top_weapons ws).length = min 5 ws.length := by
    intro ws
    rw [top_weapons, List.length_take, List.length_insertionSort]
  refine ⟨?_, hlen, ?_, ?_⟩
  · intro p
    rcases p with _ | ⟨_ | d⟩
    · exact Nat.zero_le 5
    · exact Nat.zero_le 5
    · rcases d with ⟨_ | a⟩
      · exact Nat.zero_le 5
      · rcases a with ⟨_ | ws⟩
        · exact Nat.zero_le 5
        · show ((top_weapons ws).map _).length ≤ 5
          rw [List.length_map, hlen]
          exact min_le_left 5 ws.length
  · intro ws x hx y hy
    have h : (List.insertionSort timesOrder ws).Pairwise timesOrder :=
      List.sorted_insertionSort timesOrder ws
    rw [← List.take_append_drop 5 (List.insertionSort timesOrder ws)] at h
    exact (List.pairwise_append.mp h).2.2 x hx y hy
  · intro p hp
    rcases p with _ | ⟨_ | d⟩
    · rfl
    · rfl
    · rcases d with ⟨_ | a⟩
      · rfl
      · rcases a with ⟨_ | ws⟩
        · rfl
        · exact absurd hp (by simp [wellFormedSummaries])

/-- Witness for C10: in a 6-summary list the dropped summary ("A", 10 uses) has
no more uses than the kept top one ("B", 60 uses); a payload missing
`attributes` yields the empty mapping. -/
theorem process_weapon_stats_spec_witness :
    timesUsedKey (rawUse "A" 10) ≤ timesUsedKey (rawUse "B" 60) ∧
    process_weapon_stats badPayload = [] :=
  ⟨process_weapon_stats_spec.2.2.1 rawList6 (rawUse "B" 60) (by decide) (rawUse "A" 10)
      (by decide),
   process_weapon_stats_spec.2.2.2 badPayload rfl⟩

end BattleService
